import Mathlib

/-!
Verification of the yatube content API (posts, comments, groups, follows).

Shallow embedding of `src/yatube_api/api/serializers.py` and
`src/yatube_api/api/views.py` (Django REST Framework view sets and
serializers), together with the parts of the data model that the spec
describes but whose source (`posts/models.py`, `api/permissions.py`) is not
part of the provided sources.

The store is the persistent database state: lists of users (usernames are
unique identities), group ids, posts, comments and follow edges, plus the
auto-increment counters for primary keys.  Each API operation is a function
from the store (and the acting authenticated identity, a username) to
`Except ApiError` of a result; an `Except.error` outcome models an HTTP
error response, in which case nothing was persisted.
-/

/-- Modelled from the spec: `posts/models.py` is not among the provided
sources.  Per §3 of the spec, a Post belongs to exactly one author (a
User), optionally to one Group, and has text content.  The creation
timestamp is set automatically and never client-writable, so it is not
modelled. -/
structure Post where
  id : Nat
  author : String
  text : String
  group : Option Nat
  deriving Repr, DecidableEq

/-- Modelled from the spec: `posts/models.py` is not among the provided
sources.  Per §3 of the spec, a Comment belongs to exactly one Post and
exactly one author (a User) and has text; its automatic creation timestamp
is not modelled. -/
structure Comment where
  id : Nat
  post : Nat
  author : String
  text : String
  deriving Repr, DecidableEq

/-- Modelled from the spec: `posts/models.py` is not among the provided
sources.  Per §3 of the spec, a Follow is a directed edge from one User
(the follower, stored in the `user` field) to another (the followed,
stored in the `following` field). -/
structure Follow where
  id : Nat
  user : String
  following : String
  deriving Repr, DecidableEq

/-- The persistent store: users are identified by their unique usernames,
groups by their ids.  The `next…Id` fields are the auto-increment primary
key counters of the corresponding tables. -/
structure Store where
  users : List String
  groups : List Nat
  posts : List Post
  comments : List Comment
  follows : List Follow
  nextPostId : Nat
  nextCommentId : Nat
  nextFollowId : Nat
  deriving Repr, DecidableEq

/-- Outcome kinds of an API call, as in §7 of the spec: `validation`
carries a 400 field-level message, `forbidden` is the 403 on writes by a
non-author, `notFound` the 404 for a missing referenced object, and
`serverError` an error raised below the validation layer (e.g. a storage
integrity violation). -/
inductive ApiError where
  | validation (msg : String)
  | forbidden
  | notFound
  | serverError
  deriving Repr, DecidableEq

/-- The store an operation leaves behind: the new store on success, the
unchanged input store when the operation answered with an error. -/
def stateAfter (r : Except ApiError Store) (s : Store) : Store :=
  match r with
  | .ok s' => s'
  | .error _ => s

/-- Whether a result is a 400 validation error. -/
def isValidationError (r : Except ApiError Store) : Bool :=
  match r with
  | .error (.validation _) => true
  | _ => false

/-- Success of `get_object_or_404(Post, id=pid)`: some post with this id
exists (`views.py`, used by `CommentViewSet.get_queryset` and
`CommentViewSet.perform_create`). -/
def postExists (s : Store) (pid : Nat) : Bool :=
  s.posts.any fun p => p.id == pid

/-- Modelled from the spec: `api/permissions.py` (the `IsAuthorOrReadOnly`
permission class imported by `views.py`) is not among the provided
sources.  Per §4.2 of the spec, write operations (update, delete) on a
Post/Comment are permitted only if the acting identity equals the
resource's author; reads are open.  `isSafe` is true for safe (read-only)
HTTP methods. -/
def isAuthorOrReadOnly (isSafe : Bool) (author actor : String) : Bool :=
  isSafe || author == actor

/-- Modelled from the spec: `posts/models.py` is not among the provided
sources.  `FollowViewSet.get_queryset` returns `user.followers.all()`;
per §4.3 of the spec this reverse accessor denotes "only the Follow edges
where the acting identity is the follower". -/
def userFollowers (s : Store) (u : String) : List Follow :=
  s.follows.filter fun e => e.user == u

/-- Modelled from the spec: `posts/models.py` is not among the provided
sources.  Per §3 and §5 of the spec the pair (follower, followed) is
unique and "the storage layer's uniqueness constraint is the actual
backstop": this predicate is that storage-level conflict check, consulted
when a Follow row is inserted. -/
def followStorageConflict (s : Store) (u f : String) : Bool :=
  s.follows.any fun e => e.user == u && e.following == f

/-- Client request body for the Follow endpoint.  Both fields are
username slugs; `none` models an omitted key (`FollowSerializer` in
`serializers.py`: `user` is writable with `CurrentUserDefault`,
`following` is writable and required). -/
structure FollowInput where
  user : Option String
  following : Option String
  deriving Repr, DecidableEq

/-- Validation pass of `FollowSerializer` (`serializers.py`): resolves the `user`
slug (falling back to `CurrentUserDefault()`, i.e. the acting identity,
when omitted) and the required `following` slug against the User table,
runs `validate_following` (which rejects when the followed user is the
*request's* user), and then the `UniqueTogetherValidator` over the
resolved `(user, following)` pair.  Returns the validated pair. -/
def followValidate (s : Store) (actor : String) (inp : FollowInput) :
    Except ApiError (String × String) :=
  match inp.user with
  | some u =>
    if s.users.contains u then followValidateFollowing s actor u inp
    else .error (.validation "user: object with this username does not exist")
  | none => followValidateFollowing s actor actor inp
where
  /-- Resolution of `following`, `validate_following`, and the
  `UniqueTogetherValidator` with the already-resolved user value. -/
  followValidateFollowing (s : Store) (actor userVal : String)
      (inp : FollowInput) : Except ApiError (String × String) :=
    match inp.following with
    | none => .error (.validation "following: this field is required")
    | some f =>
      if s.users.contains f then
        if f == actor then
          .error (.validation "self-follow is not possible")
        else if s.follows.any fun e => e.user == userVal && e.following == f then
          .error (.validation "already subscribed to this user")
        else .ok (userVal, f)
      else .error (.validation "following: object with this username does not exist")

/-- POST /follow/ (`FollowViewSet.perform_create` in `views.py`): after
serializer validation, saves with `user=self.request.user`, overriding any
client-supplied or defaulted `user` value; the row hits the storage-level
uniqueness backstop if the bound pair already exists. -/
def followCreate (s : Store) (actor : String) (inp : FollowInput) :
    Except ApiError Store :=
  match followValidate s actor inp with
  | .error e => .error e
  | .ok (_, f) =>
    if followStorageConflict s actor f then .error .serverError
    else .ok { s with
      follows := ⟨s.nextFollowId, actor, f⟩ :: s.follows,
      nextFollowId := s.nextFollowId + 1 }

/-- Whether `bs` starts with the segment `as` (character-list helper for the
search filter's substring semantics). -/
def startsWithSeg : List Char → List Char → Bool
  | [], _ => true
  | _ :: _, [] => false
  | a :: as, b :: bs => a == b && startsWithSeg as bs

/-- Whether `needle` occurs as a contiguous segment of `hay` (Django's
`icontains` lookup used by `SearchFilter`, after lowercasing). -/
def containsSeg (needle : List Char) : List Char → Bool
  | [] => needle.isEmpty
  | c :: rest => startsWithSeg needle (c :: rest) || containsSeg needle rest

/-- GET /follow/ (`FollowViewSet.get_queryset` plus the `SearchFilter`
over `following__username` configured in `views.py`): the acting user's
own edges, optionally narrowed by a case-insensitive substring match on
the followed username. -/
def followList (s : Store) (actor : String) (search : Option String) :
    List Follow :=
  match search with
  | none => userFollowers s actor
  | some q =>
    (userFollowers s actor).filter fun e =>
      containsSeg q.toLower.toList e.following.toLower.toList

/-- GET /follow/{id}/: `get_object` looks the pk up inside the queryset
returned by `FollowViewSet.get_queryset`, so only the acting user's own
edges are visible; anything else is a 404. -/
def followRetrieve (s : Store) (actor : String) (eid : Nat) :
    Except ApiError Follow :=
  match (userFollowers s actor).find? (fun e => e.id == eid) with
  | some e => .ok e
  | none => .error .notFound

/-- Validation pass of `FollowSerializer` when bound to an existing instance with
primary key `pk`: identical to `followValidate` except that the
`UniqueTogetherValidator` excludes the instance's own row. -/
def followValidateUpd (s : Store) (actor : String) (pk : Nat)
    (inp : FollowInput) : Except ApiError (String × String) :=
  match inp.user with
  | some u =>
    if s.users.contains u then followValidateUpdFollowing s actor pk u inp
    else .error (.validation "user: object with this username does not exist")
  | none => followValidateUpdFollowing s actor pk actor inp
where
  followValidateUpdFollowing (s : Store) (actor : String) (pk : Nat)
      (userVal : String) (inp : FollowInput) : Except ApiError (String × String) :=
    match inp.following with
    | none => .error (.validation "following: this field is required")
    | some f =>
      if s.users.contains f then
        if f == actor then
          .error (.validation "self-follow is not possible")
        else if s.follows.any fun e => !(e.id == pk) && e.user == userVal && e.following == f then
          .error (.validation "already subscribed to this user")
        else .ok (userVal, f)
      else .error (.validation "following: object with this username does not exist")

/-- PUT /follow/{id}/: `FollowViewSet` is a `ModelViewSet`, so the update
action is routed.  `get_object` searches the scoped queryset (404
otherwise), the serializer re-validates both writable fields against the
instance (the `UniqueTogetherValidator` excludes the instance's own row),
and the default `perform_update` saves without overriding anything, so the
validated `user` and `following` values are written to the edge. -/
def followUpdate (s : Store) (actor : String) (eid : Nat) (inp : FollowInput) :
    Except ApiError Store :=
  match (userFollowers s actor).find? (fun e => e.id == eid) with
  | none => .error .notFound
  | some edge =>
    match followValidateUpd s actor edge.id inp with
    | .error e => .error e
    | .ok (u, f) =>
      .ok { s with
        follows := s.follows.map fun e =>
          if e.id == edge.id then { e with user := u, following := f } else e }

/-- DELETE /follow/{id}/: `get_object` inside the scoped queryset, then
the row is removed. -/
def followDelete (s : Store) (actor : String) (eid : Nat) :
    Except ApiError Store :=
  match (userFollowers s actor).find? (fun e => e.id == eid) with
  | none => .error .notFound
  | some edge =>
    .ok { s with follows := s.follows.filter fun e => !(e.id == edge.id) }

/-- Client request body for the Post endpoints.  `PostSerializer`
(`serializers.py`) declares `author` as a read-only `SlugRelatedField`,
so a client-supplied `author` key is dropped during deserialization and
never reaches `validated_data`; `text` is the content, `group` an optional
group primary key validated against the Group table. -/
structure PostInput where
  author : Option String
  text : String
  group : Option Nat
  deriving Repr, DecidableEq

/-- POST /posts/ (`PostViewSet.perform_create` in `views.py`): after
serializer validation (only `text` and `group` are writable; `author` is
read-only and ignored), saves with `author=self.request.user`. -/
def postCreate (s : Store) (actor : String) (inp : PostInput) :
    Except ApiError Store :=
  match inp.group with
  | some g =>
    if s.groups.contains g then
      .ok { s with
        posts := ⟨s.nextPostId, actor, inp.text, inp.group⟩ :: s.posts,
        nextPostId := s.nextPostId + 1 }
    else .error (.validation "group: invalid pk")
  | none =>
    .ok { s with
      posts := ⟨s.nextPostId, actor, inp.text, inp.group⟩ :: s.posts,
      nextPostId := s.nextPostId + 1 }

/-- PUT /posts/{id}/: `get_object` looks the pk up in `Post.objects.all()`
(404 when absent), then the `IsAuthorOrReadOnly` object permission runs
for the unsafe method (403 for a non-author), then the serializer writes
the writable fields (`text`, `group`) onto the instance; `author` is
read-only and untouched. -/
def postUpdate (s : Store) (actor : String) (pid : Nat) (inp : PostInput) :
    Except ApiError Store :=
  match s.posts.find? (fun p => p.id == pid) with
  | none => .error .notFound
  | some p =>
    if isAuthorOrReadOnly false p.author actor then
      match inp.group with
      | some g =>
        if s.groups.contains g then .ok (postWrite s pid inp)
        else .error (.validation "group: invalid pk")
      | none => .ok (postWrite s pid inp)
    else .error .forbidden
where
  /-- The serializer's `update`: writable fields onto the stored row. -/
  postWrite (s : Store) (pid : Nat) (inp : PostInput) : Store :=
    { s with
      posts := s.posts.map fun x =>
        if x.id == pid then { x with text := inp.text, group := inp.group } else x }

/-- DELETE /posts/{id}/: pk lookup (404), object permission (403 for a
non-author), then the row is removed.  (The model-level cascade onto the
post's comments lives in `posts/models.py`, outside the provided sources,
and is not needed by any claim, so it is not modelled.) -/
def postDelete (s : Store) (actor : String) (pid : Nat) :
    Except ApiError Store :=
  match s.posts.find? (fun p => p.id == pid) with
  | none => .error .notFound
  | some p =>
    if isAuthorOrReadOnly false p.author actor then
      .ok { s with posts := s.posts.filter fun x => !(x.id == pid) }
    else .error .forbidden

/-- Client request body for the Comment endpoints.  `CommentSerializer`
(`serializers.py`) declares `author` read-only and lists `post` in
`read_only_fields`, so client-supplied values for either are dropped
during deserialization; only `text` is writable. -/
structure CommentInput where
  post : Option Nat
  author : Option String
  text : String
  deriving Repr, DecidableEq

/-- GET /posts/{post_id}/comments/ (`CommentViewSet.get_queryset` in
`views.py`): `get_object_or_404(Post, id=post_id)` (404 when the post
does not exist), then the post's comments. -/
def commentList (s : Store) (pid : Nat) : Except ApiError (List Comment) :=
  if postExists s pid then .ok (s.comments.filter fun c => c.post == pid)
  else .error .notFound

/-- POST /posts/{post_id}/comments/ (`CommentViewSet.perform_create` in
`views.py`): serializer validation passes with just `text` (the `post` and
`author` keys are read-only and dropped), then
`get_object_or_404(Post, id=post_id)` (404 aborts before anything is
saved), then save with `author=self.request.user, post=post`. -/
def commentCreate (s : Store) (actor : String) (pid : Nat)
    (inp : CommentInput) : Except ApiError Store :=
  if postExists s pid then
    .ok { s with
      comments := ⟨s.nextCommentId, pid, actor, inp.text⟩ :: s.comments,
      nextCommentId := s.nextCommentId + 1 }
  else .error .notFound

/-- PUT /posts/{post_id}/comments/{id}/: `get_object` resolves the pk
inside `CommentViewSet.get_queryset` (404 when the post is missing or the
comment is not under it), the `IsAuthorOrReadOnly` object permission runs
(403 for a non-author), then the serializer writes the only writable
field, `text`, onto the instance; `post` and `author` are read-only. -/
def commentUpdate (s : Store) (actor : String) (pid cid : Nat)
    (inp : CommentInput) : Except ApiError Store :=
  if postExists s pid then
    match s.comments.find? (fun c => c.id == cid && c.post == pid) with
    | none => .error .notFound
    | some c =>
      if isAuthorOrReadOnly false c.author actor then
        .ok { s with
          comments := s.comments.map fun x =>
            if x.id == cid && x.post == pid then { x with text := inp.text } else x }
      else .error .forbidden
  else .error .notFound

/-- DELETE /posts/{post_id}/comments/{id}/: scoped pk lookup (404),
object permission (403 for a non-author), then the row is removed. -/
def commentDelete (s : Store) (actor : String) (pid cid : Nat) :
    Except ApiError Store :=
  if postExists s pid then
    match s.comments.find? (fun c => c.id == cid && c.post == pid) with
    | none => .error .notFound
    | some c =>
      if isAuthorOrReadOnly false c.author actor then
        .ok { s with
          comments := s.comments.filter fun x => !(x.id == cid && x.post == pid) }
      else .error .forbidden
  else .error .notFound

/-! Concrete stores used by the claim witnesses and counterexamples. -/

/-- Store with users bob, alice, carol and one edge bob→alice. -/
def storeC2 : Store :=
  ⟨["bob", "alice", "carol"], [], [], [], [⟨1, "bob", "alice"⟩], 1, 1, 2⟩

/-- Store with one user and nothing else. -/
def storeC3 : Store := ⟨["u"], [], [], [], [], 1, 1, 1⟩

/-- The store `storeC3` after u creates a post with text "hi". -/
def storeC3ok : Store :=
  { storeC3 with posts := [⟨1, "u", "hi", none⟩], nextPostId := 2 }

/-- Store with users u, v, w and one edge u→v. -/
def storeC4 : Store :=
  ⟨["u", "v", "w"], [], [], [], [⟨5, "u", "v"⟩], 1, 1, 6⟩

/-- Store with users u, v and no edges. -/
def storeC4b : Store := ⟨["u", "v"], [], [], [], [], 1, 1, 1⟩

/-- The store `storeC4b` after u follows v. -/
def storeC4bOk : Store :=
  { storeC4b with follows := [⟨1, "u", "v"⟩], nextFollowId := 2 }

/-- Store with one post by u and one comment by u under it. -/
def storeC5 : Store :=
  ⟨["u"], [], [⟨1, "u", "p", none⟩], [⟨1, 1, "u", "old"⟩], [], 2, 2, 1⟩

/-- The store `storeC5` after the comment's text is updated to "new". -/
def storeC5ok : Store :=
  { storeC5 with comments := [⟨1, 1, "u", "new"⟩] }

/-- Store with one user and no posts at all. -/
def storeC6 : Store := ⟨["u"], [], [], [], [], 1, 1, 1⟩

/-- Store with a post and a comment both authored by u, and a second user w. -/
def storeC8 : Store :=
  ⟨["u", "w"], [], [⟨1, "u", "p", none⟩], [⟨1, 1, "u", "c"⟩], [], 2, 2, 1⟩

/-- Store with users u, a, b and one edge u→a. -/
def storeC9 : Store :=
  ⟨["u", "a", "b"], [], [], [], [⟨1, "u", "a"⟩], 1, 1, 2⟩

/-- Store with users x, y, z and one edge x→y. -/
def storeC9b : Store :=
  ⟨["x", "y", "z"], [], [], [], [⟨3, "x", "y"⟩], 1, 1, 4⟩

/-- The store `storeC9b` after x's edge is re-pointed from y to z. -/
def storeC9bOk : Store :=
  { storeC9b with follows := [⟨3, "x", "z"⟩] }

/-- Store with users m, n and one edge n→m (owned by n, not by m). -/
def storeC10 : Store :=
  ⟨["m", "n"], [], [], [], [⟨2, "n", "m"⟩], 1, 1, 3⟩

/-! The claims. -/

/-- Claim C1: every Follow creation attempt whose followed username equals
the acting identity's username fails with a validation error, and the
store is unchanged (no Follow edge is created). -/
theorem follow_create_self_rejected (s : Store) (actor : String)
    (u : Option String) :
    isValidationError (followCreate s actor ⟨u, some actor⟩) = true ∧
    stateAfter (followCreate s actor ⟨u, some actor⟩) s = s := by
  cases u <;>
    simp [followCreate, followValidate, followValidate.followValidateFollowing,
      isValidationError, stateAfter] <;>
    split_ifs <;> simp_all

/-- Claim C2 (failing input): with an existing edge bob→alice, bob's
creation request supplying `user = "carol"` and `following = "alice"`
would duplicate the pair (bob, alice) of the edge that `perform_create`
binds—yet serializer validation passes (the uniqueness validator checked
the client-supplied pair (carol, alice)), so the outcome is not a
validation error: the insert only dies on the storage uniqueness
backstop. -/
theorem follow_duplicate_validator_bypass :
    (storeC2.follows.any fun e => e.user == "bob" && e.following == "alice") = true ∧
    followValidate storeC2 "bob" ⟨some "carol", some "alice"⟩ = .ok ("carol", "alice") ∧
    isValidationError (followCreate storeC2 "bob" ⟨some "carol", some "alice"⟩) = false ∧
    followCreate storeC2 "bob" ⟨some "carol", some "alice"⟩ = .error .serverError := by
  refine ⟨rfl, rfl, rfl, rfl⟩

/-- Claim C3: a successful Post creation by authenticated user `actor`
stores `actor` as the author; the client-supplied author value is ignored
(the call's outcome does not depend on it at all). -/
theorem post_create_author_from_actor (s : Store) (actor t : String)
    (a₁ a₂ : Option String) (g : Option Nat) (s' : Store)
    (h : postCreate s actor ⟨a₁, t, g⟩ = .ok s') :
    postCreate s actor ⟨a₂, t, g⟩ = .ok s' ∧
    ∀ p ∈ s'.posts, p ∈ s.posts ∨ p.author = actor := by
  refine ⟨h, ?_⟩
  intro p hp
  cases g with
  | none =>
    simp [postCreate] at h
    subst h
    simp at hp
    rcases hp with h1 | h2
    · right; rw [h1]
    · left; exact h2
  | some gv =>
    simp [postCreate] at h
    split_ifs at h
    simp at h
    subst h
    simp at hp
    rcases hp with h1 | h2
    · right; rw [h1]
    · left; exact h2

/-- Witness for C3: creating a post in `storeC3` as u with a bogus
client-supplied author gives the same result as with no author key, and
the stored post's author is u. -/
theorem post_create_author_from_actor_witness :
    postCreate storeC3 "u" ⟨none, "hi", none⟩ = .ok storeC3ok ∧
    ∀ p ∈ storeC3ok.posts, p ∈ storeC3.posts ∨ p.author = "u" :=
  post_create_author_from_actor storeC3 "u" "hi" (some "evil") none none
    storeC3ok rfl

/-- Claim C4 (counterexample to "all validation is consistent with the
server-side binding"): in `storeC4` (edge u→v present) the acting user u
submits `user = "w"`, `following = "v"`.  Validation succeeds even though
the edge that will actually be stored, (u, v), duplicates an existing
edge — the uniqueness validator was evaluated over the client-supplied
pair, not the bound one — and the create then fails below the validation
layer. -/
theorem follow_validation_not_bound_to_actor :
    followValidate storeC4 "u" ⟨some "w", some "v"⟩ = .ok ("w", "v") ∧
    followStorageConflict storeC4 "u" "v" = true ∧
    followCreate storeC4 "u" ⟨some "w", some "v"⟩ = .error .serverError := by
  refine ⟨rfl, rfl, rfl⟩

/-- Claim C4 (amended): every Follow edge present after a successful
creation and not present before has the acting identity as its follower,
whatever `user` value the client supplied. -/
theorem follow_create_binds_follower_to_actor (s : Store) (actor : String)
    (inp : FollowInput) (s' : Store) (h : followCreate s actor inp = .ok s') :
    ∀ e ∈ s'.follows, e ∈ s.follows ∨ e.user = actor := by
  unfold followCreate at h
  cases hv : followValidate s actor inp with
  | error e => rw [hv] at h; simp at h
  | ok uf =>
    obtain ⟨uv, f⟩ := uf
    rw [hv] at h
    simp at h
    split_ifs at h
    simp at h
    subst h
    intro e he
    simp at he
    rcases he with h1 | h2
    · right; rw [h1]
    · left; exact h2

/-- Witness for the amended C4: u's follow of v in `storeC4b` succeeds,
and the stored edge is either pre-existing or has follower u. -/
theorem follow_create_binds_follower_to_actor_witness :
    followCreate storeC4b "u" ⟨none, some "v"⟩ = .ok storeC4bOk ∧
    ((⟨1, "u", "v"⟩ : Follow) ∈ storeC4b.follows ∨
      Follow.user ⟨1, "u", "v"⟩ = "u") :=
  ⟨rfl, follow_create_binds_follower_to_actor storeC4b "u" ⟨none, some "v"⟩
    storeC4bOk rfl ⟨1, "u", "v"⟩ (by simp [storeC4bOk])⟩

/-- Claim C5: a successful Comment update leaves the comment's post (and
author) association exactly as before — the client-supplied `post` value
does not influence the outcome — and touches no other table. -/
theorem comment_update_post_immutable (s : Store) (actor : String)
    (pid cid : Nat) (p₁ p₂ : Option Nat) (a : Option String) (t : String)
    (s' : Store) (h : commentUpdate s actor pid cid ⟨p₁, a, t⟩ = .ok s') :
    commentUpdate s actor pid cid ⟨p₂, a, t⟩ = .ok s' ∧
    s'.posts = s.posts ∧ s'.follows = s.follows ∧
    ∀ c' ∈ s'.comments, ∃ c, c ∈ s.comments ∧
      c'.id = c.id ∧ c'.post = c.post ∧ c'.author = c.author := by
  refine ⟨h, ?_⟩
  unfold commentUpdate at h
  split_ifs at h with hpe
  cases hf : s.comments.find? (fun c => c.id == cid && c.post == pid) with
  | none => rw [hf] at h; simp at h
  | some c =>
    rw [hf] at h
    simp only [] at h
    split_ifs at h with hperm
    simp at h
    subst h
    refine ⟨rfl, rfl, ?_⟩
    intro c' hc'
    simp [List.mem_map] at hc'
    obtain ⟨c₀, hc₀, hfc⟩ := hc'
    refine ⟨c₀, hc₀, ?_⟩
    by_cases hcond : c₀.id = cid ∧ c₀.post = pid
    · rw [if_pos hcond] at hfc
      rw [← hfc]
      exact ⟨rfl, rfl, rfl⟩
    · rw [if_neg hcond] at hfc
      rw [← hfc]
      exact ⟨rfl, rfl, rfl⟩

/-- Witness for C5: updating the comment in `storeC5` with a bogus
client-supplied post id changes only its text; its post stays 1. -/
theorem comment_update_post_immutable_witness :
    commentUpdate storeC5 "u" 1 1 ⟨some 3, some "evil", "new"⟩ = .ok storeC5ok ∧
    storeC5ok.posts = storeC5.posts ∧ storeC5ok.follows = storeC5.follows ∧
    ∀ c' ∈ storeC5ok.comments, ∃ c, c ∈ storeC5.comments ∧
      c'.id = c.id ∧ c'.post = c.post ∧ c'.author = c.author :=
  comment_update_post_immutable storeC5 "u" 1 1 (some 9) (some 3) (some "evil")
    "new" storeC5ok rfl

/-- Claim C6: Comment list and create addressed with a post id matching no
existing Post answer not-found, and the store is unchanged (no comment is
created). -/
theorem comment_missing_post_not_found (s : Store) (actor : String)
    (pid : Nat) (inp : CommentInput)
    (h : postExists s pid = false) :
    commentList s pid = .error .notFound ∧
    commentCreate s actor pid inp = .error .notFound ∧
    stateAfter (commentCreate s actor pid inp) s = s := by
  simp [commentList, commentCreate, stateAfter, h]

/-- Witness for C6: in `storeC6` (no posts) post id 7 does not exist, and
both comment operations answer not-found. -/
theorem comment_missing_post_not_found_witness :
    commentList storeC6 7 = .error .notFound ∧
    commentCreate storeC6 "u" 7 ⟨none, none, "t"⟩ = .error .notFound ∧
    stateAfter (commentCreate storeC6 "u" 7 ⟨none, none, "t"⟩) storeC6 = storeC6 :=
  comment_missing_post_not_found storeC6 "u" 7 ⟨none, none, "t"⟩ rfl

/-- Claim C7: the Follow list as user `actor`, with or without a search
query, only ever contains edges whose follower is `actor`; without a
query it contains exactly the stored edges whose follower is `actor`. -/
theorem follow_list_only_own_edges (s : Store) (actor : String)
    (q : Option String) :
    (∀ e ∈ followList s actor q, e.user = actor) ∧
    (∀ e, e ∈ followList s actor none ↔ e ∈ s.follows ∧ e.user = actor) := by
  constructor
  · intro e he
    cases q with
    | none =>
      simp [followList, userFollowers, List.mem_filter] at he
      exact he.2
    | some qq =>
      simp [followList, userFollowers, List.mem_filter] at he
      exact he.2.2
  · intro e
    simp [followList, userFollowers, List.mem_filter]

/-- Claim C8: Post and Comment update and delete by an authenticated
non-author all answer forbidden, and the store afterwards is unchanged. -/
theorem non_author_write_forbidden (s : Store) (actor : String)
    (p : Post) (c : Comment) (pinp : PostInput) (cinp : CommentInput)
    (hp : s.posts.find? (fun x => x.id == p.id) = some p)
    (hpa : p.author ≠ actor)
    (hc : postExists s c.post = true)
    (hcf : s.comments.find? (fun x => x.id == c.id && x.post == c.post) = some c)
    (hca : c.author ≠ actor) :
    postUpdate s actor p.id pinp = .error .forbidden ∧
    postDelete s actor p.id = .error .forbidden ∧
    commentUpdate s actor c.post c.id cinp = .error .forbidden ∧
    commentDelete s actor c.post c.id = .error .forbidden ∧
    stateAfter (postUpdate s actor p.id pinp) s = s ∧
    stateAfter (postDelete s actor p.id) s = s ∧
    stateAfter (commentUpdate s actor c.post c.id cinp) s = s ∧
    stateAfter (commentDelete s actor c.post c.id) s = s := by
  have hpermp : isAuthorOrReadOnly false p.author actor = false := by
    simp [isAuthorOrReadOnly, hpa]
  have hpermc : isAuthorOrReadOnly false c.author actor = false := by
    simp [isAuthorOrReadOnly, hca]
  have h1 : postUpdate s actor p.id pinp = .error .forbidden := by
    unfold postUpdate
    rw [hp]
    simp [hpermp]
  have h2 : postDelete s actor p.id = .error .forbidden := by
    unfold postDelete
    rw [hp]
    simp [hpermp]
  have h3 : commentUpdate s actor c.post c.id cinp = .error .forbidden := by
    unfold commentUpdate
    rw [if_pos hc, hcf]
    simp [hpermc]
  have h4 : commentDelete s actor c.post c.id = .error .forbidden := by
    unfold commentDelete
    rw [if_pos hc, hcf]
    simp [hpermc]
  exact ⟨h1, h2, h3, h4, by rw [h1]; rfl, by rw [h2]; rfl,
    by rw [h3]; rfl, by rw [h4]; rfl⟩

/-- Witness for C8: in `storeC8` the user w is not the author of post 1
nor of comment 1, and all four write attempts answer forbidden leaving
the store unchanged. -/
theorem non_author_write_forbidden_witness :
    postUpdate storeC8 "w" 1 ⟨none, "t", none⟩ = .error .forbidden ∧
    postDelete storeC8 "w" 1 = .error .forbidden ∧
    commentUpdate storeC8 "w" 1 1 ⟨none, none, "t"⟩ = .error .forbidden ∧
    commentDelete storeC8 "w" 1 1 = .error .forbidden ∧
    stateAfter (postUpdate storeC8 "w" 1 ⟨none, "t", none⟩) storeC8 = storeC8 ∧
    stateAfter (postDelete storeC8 "w" 1) storeC8 = storeC8 ∧
    stateAfter (commentUpdate storeC8 "w" 1 1 ⟨none, none, "t"⟩) storeC8 = storeC8 ∧
    stateAfter (commentDelete storeC8 "w" 1 1) storeC8 = storeC8 :=
  non_author_write_forbidden storeC8 "w" ⟨1, "u", "p", none⟩ ⟨1, 1, "u", "c"⟩
    ⟨none, "t", none⟩ ⟨none, none, "t"⟩ rfl (by decide) rfl rfl (by decide)

/-- Claim C9 (counterexample): the Follow handler does expose an update
transition, and it changes an existing edge's pair: in `storeC9` the edge
u→a (id 1) exists, and u's update request with `following = "b"` succeeds
and re-points the edge to u→b. -/
theorem follow_update_changes_pair_concrete :
    (⟨1, "u", "a"⟩ : Follow) ∈ storeC9.follows ∧
    followUpdate storeC9 "u" 1 ⟨none, some "b"⟩ =
      .ok { storeC9 with follows := [⟨1, "u", "b"⟩] } :=
  ⟨by simp [storeC9], rfl⟩

/-- Helper: the validated `following` value of a Follow update equals the
supplied username. -/
theorem followValidateUpd_ok_following (s : Store) (actor : String) (pk : Nat)
    (u : Option String) (f a b : String)
    (hv : followValidateUpd s actor pk ⟨u, some f⟩ = .ok (a, b)) : b = f := by
  unfold followValidateUpd followValidateUpd.followValidateUpdFollowing at hv
  cases u <;> simp at hv <;> split_ifs at hv <;> simp_all

/-- Claim C9 (amended): a Follow edge is updatable in place: whenever a
Follow update by `actor` with followed username `f` succeeds, the
affected edge was an existing edge of `actor` and the store afterwards
contains an edge with the same id whose followed user is `f` — so
deletion is not the only transition available after creation. -/
theorem follow_update_rewrites_edge (s : Store) (actor f : String)
    (eid : Nat) (u : Option String) (s' : Store)
    (h : followUpdate s actor eid ⟨u, some f⟩ = .ok s') :
    ∃ e, e ∈ s.follows ∧ e.id = eid ∧ e.user = actor ∧
      ∃ e', e' ∈ s'.follows ∧ e'.id = eid ∧ e'.following = f := by
  unfold followUpdate at h
  cases hf : (userFollowers s actor).find? (fun e => e.id == eid) with
  | none => rw [hf] at h; simp at h
  | some edge =>
    rw [hf] at h
    simp only [] at h
    have hmem := List.mem_of_find?_eq_some hf
    have hpred := List.find?_some hf
    simp only [beq_iff_eq] at hpred
    simp only [userFollowers, List.mem_filter, beq_iff_eq] at hmem
    cases hv : followValidateUpd s actor edge.id ⟨u, some f⟩ with
    | error e => rw [hv] at h; simp at h
    | ok uf =>
      obtain ⟨uv, fv⟩ := uf
      rw [hv] at h
      simp at h
      subst h
      have hfv : fv = f :=
        followValidateUpd_ok_following s actor edge.id u f uv fv hv
      refine ⟨edge, hmem.1, hpred, hmem.2, ?_⟩
      refine ⟨{ edge with user := uv, following := fv }, ?_, ?_, ?_⟩
      · simp [List.mem_map]
        refine ⟨edge, hmem.1, ?_⟩
        simp
      · simpa using hpred
      · simpa using hfv

/-- Witness for the amended C9: in `storeC9b`, x's update of edge 3 to
follow z succeeds, and the edge with id 3 now points at z. -/
theorem follow_update_rewrites_edge_witness :
    ∃ e, e ∈ storeC9b.follows ∧ e.id = 3 ∧ e.user = "x" ∧
      ∃ e', e' ∈ storeC9bOk.follows ∧ e'.id = 3 ∧ e'.following = "z" :=
  follow_update_rewrites_edge storeC9b "x" "z" 3 none storeC9bOk rfl

/-- Claim C10: when no Follow edge with the requested id has the acting
identity as follower, retrieve, update and delete on that id all answer
not-found, and the store is unchanged. -/
theorem follow_detail_scoped_to_owner (s : Store) (actor : String)
    (eid : Nat) (inp : FollowInput)
    (h : ∀ e, e ∈ s.follows → e.id = eid → e.user ≠ actor) :
    followRetrieve s actor eid = .error .notFound ∧
    followUpdate s actor eid inp = .error .notFound ∧
    followDelete s actor eid = .error .notFound ∧
    stateAfter (followUpdate s actor eid inp) s = s ∧
    stateAfter (followDelete s actor eid) s = s := by
  have hf : (userFollowers s actor).find? (fun e => e.id == eid) = none := by
    rw [List.find?_eq_none]
    intro e he
    simp only [userFollowers, List.mem_filter, beq_iff_eq] at he
    simp only [beq_iff_eq]
    intro hid
    exact h e he.1 hid he.2
  have h1 : followRetrieve s actor eid = .error .notFound := by
    unfold followRetrieve; rw [hf]
  have h2 : followUpdate s actor eid inp = .error .notFound := by
    unfold followUpdate; rw [hf]
  have h3 : followDelete s actor eid = .error .notFound := by
    unfold followDelete; rw [hf]
  exact ⟨h1, h2, h3, by rw [h2]; rfl, by rw [h3]; rfl⟩

/-- Witness for C10: in `storeC10` the only edge with id 2 belongs to n,
so m's retrieve, update and delete of id 2 all answer not-found and leave
the store unchanged. -/
theorem follow_detail_scoped_to_owner_witness :
    followRetrieve storeC10 "m" 2 = .error .notFound ∧
    followUpdate storeC10 "m" 2 ⟨none, some "n"⟩ = .error .notFound ∧
    followDelete storeC10 "m" 2 = .error .notFound ∧
    stateAfter (followUpdate storeC10 "m" 2 ⟨none, some "n"⟩) storeC10 = storeC10 ∧
    stateAfter (followDelete storeC10 "m" 2) storeC10 = storeC10 :=
  follow_detail_scoped_to_owner storeC10 "m" 2 ⟨none, some "n"⟩
    (by intro e he hid; simp [storeC10] at he; subst he; decide)
